import Mathlib

/-!
Shallow embedding of the fetch-orchestration core of the `scrappy` repository
(`app/unintrusive_scraper/page_scraper.py`, with the URL-resolution variant of
`app/unintrusive_scraper/page_scraper_2.py`).

Strings are modelled as `List Char`.  The effectful parts of the Python code are
modelled by explicit state passing:

* the on-disk response cache is a function from cache keys to optional bodies;
* the network (`requests.get`) is an oracle `net : Nat → Option (List Char)`
  indexed by the global count of GET invocations so far (`none` models a
  timeout, connection error or non-2xx response, `some body` a 2xx response);
* the robots evaluator (`urllib.robotparser.can_fetch`, which may raise) is a
  function into `Except`;
* the observable side effects (robots checks, cache reads, GET requests,
  backoff sleeps) are counted in the state.
-/

namespace Scrappy

/-- Left-to-right, non-overlapping replacement of the pattern `p` by `r`
(the semantics of Python's `str.replace`), with explicit fuel so that the
recursion is structural.  The replacement text is not rescanned. -/
def replaceFuel (p r : List Char) : Nat → List Char → List Char
  | 0, s => s
  | _ + 1, [] => []
  | fuel + 1, c :: rest =>
    if p.isPrefixOf (c :: rest) then
      r ++ replaceFuel p r fuel ((c :: rest).drop p.length)
    else
      c :: replaceFuel p r fuel rest

/-- Python's `s.replace(p, r)`: `s.length` fuel suffices because every step of
`replaceFuel` with a nonempty pattern consumes at least one character. -/
def replaceL (p r s : List Char) : List Char :=
  replaceFuel p r s.length s

/-- The cache-file name computed by `get_page_content`
(`page_scraper.py:155`):
`url.replace("http://", "").replace("https://", "").replace("/", "_").replace(":", "_") + ".html"`. -/
def safe_filename (url : List Char) : List Char :=
  replaceL [':'] ['_']
    (replaceL ['/'] ['_']
      (replaceL "https://".data []
        (replaceL "http://".data [] url))) ++ ".html".data

/-- Python's `s.rstrip("/")`, applied to the base URL in `__init__`
(`page_scraper.py:84`). -/
def rstripSlashes (s : List Char) : List Char :=
  (s.reverse.dropWhile (fun c => c = '/')).reverse

/-- URL resolution of `page_scraper.py` (`__init__` line 84 composed with
`scrape` line 231): `base_url.rstrip("/")` followed by the strategy path
appended verbatim. -/
def resolve_url (origin path : List Char) : List Char :=
  rstripSlashes origin ++ path

/-- URL resolution of `page_scraper_2.py` (`scrape` lines 209-213): the base
URL is used verbatim and a leading slash is prepended to the path when it
does not already start with one. -/
def resolve_url_2 (origin path : List Char) : List Char :=
  origin ++ (if path.head? = some '/' then path else '/' :: path)

/-- Modelled from the spec's words (for the refinement comparison of C3 only):
"resolved URL is origin + path with exactly one separating slash regardless of
trailing/leading slashes on inputs". -/
def spec_resolve (origin path : List Char) : List Char :=
  rstripSlashes origin ++ '/' :: path.dropWhile (fun c => c = '/')

/-- The external collaborators of one scraper instance: the robots evaluator
(which may raise, hence `Except`) and the network. -/
structure ScrapeEnv where
  canFetchRaw : List Char → Except String Bool
  net : Nat → Option (List Char)

/-- The scraper's configuration: the raw `base_url` constructor argument and
`max_retries`. -/
structure ScraperCfg where
  base_url : List Char
  max_retries : Nat

/-- The mutable world threaded through a fetch: the response cache (key to
body) and counters of the observable side effects. -/
structure ScrapeState where
  cache : List Char → Option (List Char)
  robotsChecks : Nat
  cacheReads : Nat
  gets : Nat
  sleeps : Nat

/-- `UnintrusivePageScraper.can_fetch` (`page_scraper.py:124-138`): delegate to
the robots evaluator, and return `False` if it raises. -/
def can_fetch (env : ScrapeEnv) (url : List Char) : Bool :=
  match env.canFetchRaw url with
  | Except.ok b => b
  | Except.error _ => false

/-- Writing `response.text` to the cache file (`page_scraper.py:179-180`). -/
def writeCache (key body : List Char) (s : ScrapeState) : ScrapeState :=
  { s with cache := fun k => if k = key then some body else s.cache k }

/-- The retry loop of `get_page_content` (`page_scraper.py:171-202`),
`for attempt in range(self.max_retries)`, recast on the number of remaining
iterations.  Each iteration issues one GET; on success the body is cached and
returned; on failure a backoff sleep happens unless this was the last
iteration, in which case `None` is returned. -/
def fetchLoop (net : Nat → Option (List Char)) (key : List Char) :
    Nat → ScrapeState → Option (List Char) × ScrapeState
  | 0, s => (none, s)
  | remaining + 1, s =>
    let s1 : ScrapeState := { s with gets := s.gets + 1 }
    match net s.gets with
    | some body => (some body, writeCache key body s1)
    | none =>
      if remaining = 0 then (none, s1)
      else fetchLoop net key remaining { s1 with sleeps := s1.sleeps + 1 }

/-- `UnintrusivePageScraper.get_page_content` (`page_scraper.py:140-202`):
robots check first (returning `None` on disallow), then the cache lookup
(returning the cached body on a hit), then the retry loop. -/
def get_page_content (env : ScrapeEnv) (cfg : ScraperCfg) (s : ScrapeState)
    (url : List Char) : Option (List Char) × ScrapeState :=
  let s0 : ScrapeState := { s with robotsChecks := s.robotsChecks + 1 }
  if can_fetch env url then
    let key := safe_filename url
    let s1 : ScrapeState := { s0 with cacheReads := s0.cacheReads + 1 }
    match s1.cache key with
    | some body => (some body, s1)
    | none => fetchLoop env.net key cfg.max_retries s1
  else
    (none, s0)

/-- `PageScrapingStrategy`: a target path and a parse function over the fetched
markup (`BeautifulSoup` construction is folded into `parse`).  `parse` may
raise (`Except.error`), return Python `None` (`Except.ok none`) or return data
(`Except.ok (some a)`). -/
structure ScrapeStrategy (α : Type) where
  get_url : List Char
  parse : List Char → Except String (Option α)

/-- `UnintrusivePageScraper.scrape` (`page_scraper.py:222-243`).  The third
component counts invocations of `strategy.parse`.  An empty strategy path is
rejected up front; a fetch returning `None` or the empty string yields `None`;
a raising `parse` is caught and converted to `None`; otherwise `parse`'s own
result (including its `None`) is returned unchanged. -/
def scrape {α : Type} (env : ScrapeEnv) (cfg : ScraperCfg) (s : ScrapeState)
    (strat : ScrapeStrategy α) : Option α × ScrapeState × Nat :=
  if strat.get_url = [] then (none, s, 0)
  else
    match get_page_content env cfg s (resolve_url cfg.base_url strat.get_url) with
    | (none, s1) => (none, s1, 0)
    | (some html, s1) =>
      if html = [] then (none, s1, 0)
      else
        match strat.parse html with
        | Except.error _ => (none, s1, 1)
        | Except.ok r => (r, s1, 1)

/-! Helper lemmas about the replacement function used for cache keys. -/

/-- Every character of the output of `replaceFuel` comes from the replacement
text or from the input. -/
theorem mem_replaceFuel (p r : List Char) :
    ∀ (fuel : Nat) (s : List Char) (c : Char),
      c ∈ replaceFuel p r fuel s → c ∈ r ∨ c ∈ s := by
  intro fuel
  induction fuel with
  | zero => intro s c hc; exact Or.inr hc
  | succ fuel ih =>
    intro s c hc
    cases s with
    | nil => simp [replaceFuel] at hc
    | cons a rest =>
      rw [replaceFuel] at hc
      by_cases hp : p.isPrefixOf (a :: rest) = true
      · rw [if_pos hp] at hc
        rcases List.mem_append.mp hc with h | h
        · exact Or.inl h
        · rcases ih _ _ h with h' | h'
          · exact Or.inl h'
          · exact Or.inr (List.drop_subset _ _ h')
      · rw [if_neg hp] at hc
        rcases List.mem_cons.mp hc with h | h
        · exact Or.inr (h ▸ List.mem_cons_self _ _)
        · rcases ih _ _ h with h' | h'
          · exact Or.inl h'
          · exact Or.inr (List.mem_cons_of_mem _ h')

/-- Replacing the single character `c` removes it entirely, provided `c` does
not occur in the replacement text and the fuel covers the input. -/
theorem not_mem_replaceFuel_single (c : Char) (r : List Char) (hr : c ∉ r) :
    ∀ (s : List Char) (fuel : Nat), s.length ≤ fuel →
      c ∉ replaceFuel [c] r fuel s := by
  intro s
  induction s with
  | nil =>
    intro fuel _
    cases fuel <;> simp [replaceFuel]
  | cons a rest ih =>
    intro fuel hfuel
    cases fuel with
    | zero => simp at hfuel
    | succ fuel =>
      rw [replaceFuel]
      by_cases hca : c = a
      · subst hca
        have hp : [c].isPrefixOf (c :: rest) = true := by
          simp [List.isPrefixOf]
        rw [if_pos hp]
        intro hmem
        rcases List.mem_append.mp hmem with h | h
        · exact hr h
        · exact ih fuel (by simpa using hfuel) (by simpa using h)
      · have hp : [c].isPrefixOf (a :: rest) = false := by
          simp [List.isPrefixOf, hca]
        rw [if_neg (by simp [hp])]
        intro hmem
        rcases List.mem_cons.mp hmem with h | h
        · exact hca h
        · exact ih fuel (by simpa using hfuel) h

/-- Membership transport along a Boolean prefix test. -/
theorem mem_of_isPrefixOf {c : Char} :
    ∀ {p l : List Char}, p.isPrefixOf l = true → c ∈ p → c ∈ l := by
  intro p
  induction p with
  | nil => intro l _ hc; simp at hc
  | cons a p' ih =>
    intro l hpl hc
    cases l with
    | nil => simp at hpl
    | cons b l' =>
      rw [List.isPrefixOf_cons₂] at hpl
      have hab : a = b := by
        have := (Bool.and_eq_true _ _).mp hpl
        exact eq_of_beq this.1
      have htail := ((Bool.and_eq_true _ _).mp hpl).2
      rcases List.mem_cons.mp hc with h | h
      · exact (h.trans hab) ▸ List.mem_cons_self _ _
      · exact List.mem_cons_of_mem _ (ih htail h)

/-- A list is a Boolean prefix of itself followed by anything. -/
theorem isPrefixOf_append_self (p t : List Char) :
    p.isPrefixOf (p ++ t) = true := by
  induction p with
  | nil => simp [List.isPrefixOf]
  | cons a p' ih => simp [List.isPrefixOf_cons₂, ih]

/-- A list is a Boolean suffix of anything followed by itself. -/
theorem isSuffixOf_append_self (a b : List Char) :
    a.isSuffixOf (b ++ a) = true := by
  simp only [List.isSuffixOf, List.reverse_append]
  exact isPrefixOf_append_self _ _

/-- Stripping trailing slashes is the identity when the last character is not a
slash. -/
theorem rstripSlashes_eq_self {o : List Char} (h : o.getLast? ≠ some '/') :
    rstripSlashes o = o := by
  unfold rstripSlashes
  cases hrev : o.reverse with
  | nil =>
    have : o = [] := by simpa using congrArg List.reverse hrev
    simp [this]
  | cons c t =>
    have hc : o.getLast? = some c := by
      rw [← List.head?_reverse, hrev, List.head?_cons]
    have hcs : ¬(c = '/') := fun hh => h (hc.trans (by rw [hh]))
    rw [List.dropWhile_cons, if_neg (by simpa using hcs), ← hrev,
      List.reverse_reverse]

/-! Helper lemmas about the retry loop. -/

/-- When every GET fails, the retry loop returns `none` after issuing exactly
one GET per loop iteration and leaves the cache untouched. -/
theorem fetchLoop_all_fail (net : Nat → Option (List Char)) (key : List Char)
    (hnet : ∀ i, net i = none) :
    ∀ (r : Nat) (s : ScrapeState),
      (fetchLoop net key r s).1 = none
      ∧ (fetchLoop net key r s).2.gets = s.gets + r
      ∧ (fetchLoop net key r s).2.cache = s.cache := by
  intro r
  induction r with
  | zero => intro s; simp [fetchLoop]
  | succ r ih =>
    intro s
    simp only [fetchLoop, hnet]
    by_cases hr : r = 0
    · subst hr; simp
    · rw [if_neg hr]
      have h1 := ih { s with gets := s.gets + 1, sleeps := s.sleeps + 1 }
      have hg : ({ s with gets := s.gets + 1, sleeps := s.sleeps + 1 } :
          ScrapeState).gets = s.gets + 1 := rfl
      refine ⟨h1.1, ?_, h1.2.2⟩
      rw [h1.2.1, hg]
      omega

/-- When the first `N` GETs fail and the following one succeeds within the
attempt budget, the retry loop returns the successful body after exactly
`N + 1` GETs. -/
theorem fetchLoop_succeeds (net : Nat → Option (List Char)) (key : List Char) :
    ∀ (N : Nat) (r : Nat) (s : ScrapeState) (body : List Char), N < r →
      (∀ i, i < N → net (s.gets + i) = none) → net (s.gets + N) = some body →
      (fetchLoop net key r s).1 = some body
      ∧ (fetchLoop net key r s).2.gets = s.gets + N + 1 := by
  intro N
  induction N with
  | zero =>
    intro r s body hr hfail hok
    cases r with
    | zero => omega
    | succ r' =>
      simp only [Nat.add_zero] at hok
      simp [fetchLoop, hok, writeCache]
  | succ N ih =>
    intro r s body hr hfail hok
    cases r with
    | zero => omega
    | succ r' =>
      have h0 : net s.gets = none := by
        have := hfail 0 (Nat.succ_pos N)
        simpa using this
      simp only [fetchLoop, h0]
      rw [if_neg (by omega)]
      have hg : ({ s with gets := s.gets + 1, sleeps := s.sleeps + 1 } :
          ScrapeState).gets = s.gets + 1 := rfl
      have hrec := ih r' { s with gets := s.gets + 1, sleeps := s.sleeps + 1 }
        body (by omega)
        (fun i hi => by
          rw [hg, show s.gets + 1 + i = s.gets + (i + 1) by omega]
          exact hfail (i + 1) (by omega))
        (by rw [hg, show s.gets + 1 + N = s.gets + (N + 1) by omega]; exact hok)
      refine ⟨hrec.1, ?_⟩
      rw [hrec.2, hg]
      omega

/-- If the retry loop returns a body, that body has been written to the cache
under the given key. -/
theorem fetchLoop_cache_of_some (net : Nat → Option (List Char)) (key : List Char) :
    ∀ (r : Nat) (s : ScrapeState) (body : List Char),
      (fetchLoop net key r s).1 = some body →
      (fetchLoop net key r s).2.cache key = some body := by
  intro r
  induction r with
  | zero => intro s body h; simp [fetchLoop] at h
  | succ r ih =>
    intro s body h
    simp only [fetchLoop] at h ⊢
    cases hnet : net s.gets with
    | some b =>
      simp only [hnet] at h ⊢
      have hb : b = body := by simpa using h
      simp [writeCache, hb]
    | none =>
      simp only [hnet] at h ⊢
      by_cases hr : r = 0
      · subst hr; simp at h
      · rw [if_neg hr] at h ⊢
        exact ih _ body h

/-- Characterization of `get_page_content` with the intermediate states
flattened. -/
theorem get_page_content_eq (env : ScrapeEnv) (cfg : ScraperCfg)
    (s : ScrapeState) (url : List Char) :
    get_page_content env cfg s url =
      if can_fetch env url then
        match s.cache (safe_filename url) with
        | some body =>
          (some body,
            { s with
              robotsChecks := s.robotsChecks + 1
              cacheReads := s.cacheReads + 1 })
        | none =>
          fetchLoop env.net (safe_filename url) cfg.max_retries
            { s with
              robotsChecks := s.robotsChecks + 1
              cacheReads := s.cacheReads + 1 }
      else (none, { s with robotsChecks := s.robotsChecks + 1 }) := rfl

/-- `mem_replaceFuel` at the fuel used by `replaceL`. -/
theorem mem_replaceL (p r s : List Char) (c : Char) :
    c ∈ replaceL p r s → c ∈ r ∨ c ∈ s :=
  mem_replaceFuel p r s.length s c

/-- `not_mem_replaceFuel_single` at the fuel used by `replaceL`. -/
theorem not_mem_replaceL_single (c : Char) (r : List Char) (hr : c ∉ r)
    (s : List Char) : c ∉ replaceL [c] r s :=
  not_mem_replaceFuel_single c r hr s s.length (Nat.le_refl _)

/-- `get_page_content` on a robots-denied URL. -/
theorem get_page_content_denied (env : ScrapeEnv) (cfg : ScraperCfg)
    (s : ScrapeState) (url : List Char) (hcf : can_fetch env url = false) :
    get_page_content env cfg s url
      = (none, { s with robotsChecks := s.robotsChecks + 1 }) := by
  rw [get_page_content_eq, if_neg (by simp [hcf])]

/-- `get_page_content` on a robots-allowed URL with a cached body. -/
theorem get_page_content_hit (env : ScrapeEnv) (cfg : ScraperCfg)
    (s : ScrapeState) (url body : List Char) (hcf : can_fetch env url = true)
    (hcache : s.cache (safe_filename url) = some body) :
    get_page_content env cfg s url
      = (some body, { s with robotsChecks := s.robotsChecks + 1, cacheReads := s.cacheReads + 1 }) := by
  rw [get_page_content_eq, if_pos hcf, hcache]

/-- `get_page_content` on a robots-allowed uncached URL delegates to the retry
loop. -/
theorem get_page_content_miss (env : ScrapeEnv) (cfg : ScraperCfg)
    (s : ScrapeState) (url : List Char) (hcf : can_fetch env url = true)
    (hcache : s.cache (safe_filename url) = none) :
    get_page_content env cfg s url
      = fetchLoop env.net (safe_filename url) cfg.max_retries
          { s with robotsChecks := s.robotsChecks + 1, cacheReads := s.cacheReads + 1 } := by
  rw [get_page_content_eq, if_pos hcf, hcache]

/-! Concrete instances used by witnesses and counterexamples. -/

/-- A robots evaluator that allows every URL, over a network whose first GET
succeeds with body `"B"`. -/
def oneShotEnv : ScrapeEnv :=
  ⟨fun _ => Except.ok true, fun i => if i = 0 then some "B".data else none⟩

/-- A state whose cache holds the empty body for the key of
`http://a.com/p`. -/
def emptyBodyCachedState : ScrapeState :=
  ⟨fun k => if k = safe_filename "http://a.com/p".data then some [] else none,
    0, 0, 0, 0⟩

/-- A robots evaluator that allows every URL, over a network where every GET
fails. -/
def allowNoNetEnv : ScrapeEnv := ⟨fun _ => Except.ok true, fun _ => none⟩

/-- A robots evaluator that denies every URL. -/
def denyAllEnv : ScrapeEnv := ⟨fun _ => Except.ok false, fun _ => none⟩

/-- The scraper state right after construction: empty cache, no side effects
yet. -/
def initState : ScrapeState := ⟨fun _ => none, 0, 0, 0, 0⟩

/-- A state whose cache holds the body `"B"` for the key of
`http://a.com/p`. -/
def c1CachedState : ScrapeState :=
  ⟨fun k => if k = safe_filename "http://a.com/p".data then some "B".data
    else none, 0, 0, 0, 0⟩

/-! The claims. -/

/-- C1 (amended): in `get_page_content` the robots check precedes the cache
check.  When robots.txt allows a URL whose key is cached, the cached body is
returned with no GET invocation and no backoff sleep; but when robots.txt
denies the URL, `None` is returned without consulting the cache, even if a
cached body exists. -/
theorem C1_robots_before_cache (env : ScrapeEnv) (cfg : ScraperCfg)
    (s : ScrapeState) (url : List Char) :
    (∀ body, can_fetch env url = true → s.cache (safe_filename url) = some body →
      (get_page_content env cfg s url).1 = some body
      ∧ (get_page_content env cfg s url).2.gets = s.gets
      ∧ (get_page_content env cfg s url).2.sleeps = s.sleeps)
    ∧ (can_fetch env url = false →
      (get_page_content env cfg s url).1 = none
      ∧ (get_page_content env cfg s url).2.gets = s.gets) := by
  constructor
  · intro body hcf hcache
    simp [get_page_content, hcf, hcache]
  · intro hcf
    simp [get_page_content, hcf]

/-- Witness for C1: a robots-allowed cached URL is served from the cache with
zero GETs; the same cached URL under a deny-all policy yields `None`. -/
theorem C1_robots_before_cache_witness :
    (get_page_content allowNoNetEnv ⟨"http://a.com".data, 3⟩ c1CachedState
      "http://a.com/p".data).1 = some "B".data
    ∧ (get_page_content denyAllEnv ⟨"http://a.com".data, 3⟩ c1CachedState
      "http://a.com/p".data).1 = none :=
  ⟨((C1_robots_before_cache allowNoNetEnv ⟨"http://a.com".data, 3⟩ c1CachedState
      "http://a.com/p".data).1 "B".data rfl (by simp [c1CachedState])).1,
    ((C1_robots_before_cache denyAllEnv ⟨"http://a.com".data, 3⟩ c1CachedState
      "http://a.com/p".data).2 rfl).1⟩

/-- C1 counterexample: a URL whose key is cached, but which robots.txt denies,
is NOT served from the cache — `get_page_content` returns `None`, because the
robots check comes first (`page_scraper.py:151` before `:161`). -/
theorem C1_counterexample :
    c1CachedState.cache (safe_filename "http://a.com/p".data) = some "B".data
    ∧ (get_page_content denyAllEnv ⟨"http://a.com".data, 3⟩ c1CachedState
      "http://a.com/p".data).1 = none
    ∧ (get_page_content denyAllEnv ⟨"http://a.com".data, 3⟩ c1CachedState
      "http://a.com/p".data).1 ≠ some "B".data := by
  refine ⟨by simp [c1CachedState], rfl, by simp [get_page_content, denyAllEnv, can_fetch]⟩

/-- C2: at the failing input — `max_retries = 2`, an uncached robots-allowed
URL, every GET failing — the code issues exactly 2 GET invocations and then
returns `None`.  The claim (and the repository's own test
`test_retry_mechanism_exceed_max_retries`, which asserts `call_count == 3` for
`max_retries=2`) expects `K + 1 = 3` invocations: the loop
`for attempt in range(self.max_retries)` (`page_scraper.py:171`) performs only
`K` total attempts. -/
theorem C2_retry_count_at_failing_input :
    (get_page_content allowNoNetEnv ⟨"http://testsite.com".data, 2⟩ initState
      "http://testsite.com/fail_page".data).1 = none
    ∧ (get_page_content allowNoNetEnv ⟨"http://testsite.com".data, 2⟩ initState
      "http://testsite.com/fail_page".data).2.gets = 2 := by
  decide

/-- C6: with a robots policy that denies every URL, `scrape` returns `None`
and performs zero GET invocations, for every strategy. -/
theorem C6_deny_all_zero_fetches {α : Type} (env : ScrapeEnv)
    (hdeny : ∀ u, can_fetch env u = false) (cfg : ScraperCfg) (s : ScrapeState)
    (strat : ScrapeStrategy α) :
    (scrape env cfg s strat).1 = none
    ∧ (scrape env cfg s strat).2.1.gets = s.gets := by
  by_cases hu : strat.get_url = []
  · simp [scrape, hu]
  · simp [scrape, hu, get_page_content, hdeny]

/-- Witness for C6 with the deny-all evaluator. -/
theorem C6_deny_all_zero_fetches_witness :
    (scrape denyAllEnv ⟨"http://a.com".data, 3⟩ initState
      (⟨"/p".data, fun _ => Except.ok (some 1)⟩ : ScrapeStrategy Nat)).1 = none
    ∧ (scrape denyAllEnv ⟨"http://a.com".data, 3⟩ initState
      (⟨"/p".data, fun _ => Except.ok (some 1)⟩ : ScrapeStrategy Nat)).2.1.gets
      = 0 :=
  C6_deny_all_zero_fetches denyAllEnv (fun _ => rfl) _ _ _

/-- C7: if the robots evaluator raises during evaluation, `can_fetch` catches
the exception and returns `false` (`page_scraper.py:134-138`); `can_fetch` is
a total Boolean function, so no exception reaches its caller. -/
theorem C7_can_fetch_fail_safe (env : ScrapeEnv) (url : List Char) (e : String)
    (h : env.canFetchRaw url = Except.error e) :
    can_fetch env url = false := by
  simp [can_fetch, h]

/-- Witness for C7: a concrete raising evaluator yields `false`. -/
theorem C7_can_fetch_fail_safe_witness :
    can_fetch ⟨fun _ => Except.error "robots evaluation failed", fun _ => none⟩
      "http://a.com/p".data = false :=
  C7_can_fetch_fail_safe _ _ "robots evaluation failed" rfl

/-- C10: an empty (falsy) strategy path makes `scrape` return `None`
immediately (`page_scraper.py:226-229`): the returned state is the input state
unchanged — no robots check, no cache access, no GET, no sleep — and `parse`
is never invoked (third component `0`). -/
theorem C10_empty_path_short_circuit {α : Type} (env : ScrapeEnv)
    (cfg : ScraperCfg) (s : ScrapeState) (strat : ScrapeStrategy α)
    (h : strat.get_url = []) :
    scrape env cfg s strat = (none, s, 0) := by
  simp [scrape, h]

/-- Witness for C10 with an empty-path strategy. -/
theorem C10_empty_path_short_circuit_witness :
    scrape allowNoNetEnv ⟨"http://a.com".data, 3⟩ initState
      (⟨[], fun _ => Except.ok (some 1)⟩ : ScrapeStrategy Nat)
      = (none, initState, 0) :=
  C10_empty_path_short_circuit _ _ _ _ rfl

/-- C3 (amended): neither scraper revision inserts exactly one separating
slash unconditionally.  `page_scraper.py` strips trailing slashes from the
origin but appends the path verbatim, so its resolution agrees with the
spec-modelled `spec_resolve` precisely when the path starts with exactly one
slash; `page_scraper_2.py` uses the origin verbatim and only prepends a slash
when the path lacks one, so it agrees with `spec_resolve` when the origin has
no trailing slash and the path does not start with a double slash. -/
theorem C3_url_resolution (o p : List Char) :
    (resolve_url o p = spec_resolve o p
      ↔ p = '/' :: p.dropWhile (fun c => c = '/'))
    ∧ (o.getLast? ≠ some '/' → ['/', '/'].isPrefixOf p = false →
      resolve_url_2 o p = spec_resolve o p) := by
  constructor
  · rw [resolve_url, spec_resolve]
    constructor
    · intro h
      exact List.append_cancel_left h
    · intro h
      rw [← h]
  · intro h1 h2
    rw [resolve_url_2, spec_resolve, rstripSlashes_eq_self h1]
    congr 1
    cases p with
    | nil => simp
    | cons c t =>
      by_cases hc : c = '/'
      · subst hc
        rw [List.head?_cons, if_pos rfl, List.dropWhile_cons, if_pos (by simp)]
        cases t with
        | nil => simp
        | cons d t' =>
          have hd : ¬(d = '/') := by
            intro hdd
            subst hdd
            simp [List.isPrefixOf_cons₂, List.isPrefixOf] at h2
          rw [List.dropWhile_cons, if_neg (by simpa using hd)]
      · rw [List.head?_cons, if_neg (by simpa using hc), List.dropWhile_cons,
          if_neg (by simpa using hc)]

/-- Witness for C3: a path with exactly one leading slash resolves with one
separator in `page_scraper.py` despite trailing slashes on the origin, and a
slashless path under a slashless origin resolves with one separator in
`page_scraper_2.py`. -/
theorem C3_url_resolution_witness :
    resolve_url "http://a.com//".data "/wiki".data
      = spec_resolve "http://a.com//".data "/wiki".data
    ∧ resolve_url_2 "http://a.com".data "wiki".data
      = spec_resolve "http://a.com".data "wiki".data :=
  ⟨(C3_url_resolution "http://a.com//".data "/wiki".data).1.mpr (by decide),
    (C3_url_resolution "http://a.com".data "wiki".data).2 (by decide)
      (by decide)⟩

/-- C3 counterexample: with a path carrying no leading slash,
`page_scraper.py` produces `http://a.comp` — no separator at all — and with a
trailing-slash origin `page_scraper_2.py` produces a double slash; both differ
from the claimed exactly-one-slash resolution. -/
theorem C3_counterexample :
    resolve_url "http://a.com".data "p".data = "http://a.comp".data
    ∧ spec_resolve "http://a.com".data "p".data = "http://a.com/p".data
    ∧ resolve_url "http://a.com".data "p".data
      ≠ spec_resolve "http://a.com".data "p".data
    ∧ resolve_url_2 "http://a.com/".data "/p".data = "http://a.com//p".data
    ∧ resolve_url_2 "http://a.com/".data "/p".data
      ≠ spec_resolve "http://a.com/".data "/p".data := by
  decide

/-- C4: if a fetch returns a body (from the cache or from the network, in
which case it is written through to the cache), a second fetch of the same URL
from the resulting state returns exactly that body with no further GET
invocation. -/
theorem C4_cache_round_trip (env : ScrapeEnv) (cfg : ScraperCfg)
    (s : ScrapeState) (url body : List Char)
    (h : (get_page_content env cfg s url).1 = some body) :
    (get_page_content env cfg ((get_page_content env cfg s url).2) url).1
      = some body
    ∧ (get_page_content env cfg ((get_page_content env cfg s url).2) url).2.gets
      = ((get_page_content env cfg s url).2).gets := by
  have hcf : can_fetch env url = true := by
    cases hx : can_fetch env url with
    | true => rfl
    | false =>
      rw [get_page_content_denied _ _ _ _ hx] at h
      simp at h
  have hpost : ((get_page_content env cfg s url).2).cache (safe_filename url)
      = some body := by
    cases hcache : s.cache (safe_filename url) with
    | some b =>
      rw [get_page_content_hit _ _ _ _ _ hcf hcache] at h ⊢
      have hb : b = body := by simpa using h
      subst hb
      simpa using hcache
    | none =>
      rw [get_page_content_miss _ _ _ _ hcf hcache] at h ⊢
      exact fetchLoop_cache_of_some _ _ _ _ _ h
  rw [get_page_content_hit _ _ _ _ _ hcf hpost]
  exact ⟨rfl, rfl⟩

/-- Witness for C4: a first fetch that succeeds over the network is re-served
from the cache by the second fetch, with the GET counter unchanged. -/
theorem C4_cache_round_trip_witness :
    (get_page_content oneShotEnv ⟨"http://a.com".data, 3⟩
      ((get_page_content oneShotEnv ⟨"http://a.com".data, 3⟩ initState
        "http://a.com/p".data).2) "http://a.com/p".data).1 = some "B".data
    ∧ (get_page_content oneShotEnv ⟨"http://a.com".data, 3⟩
      ((get_page_content oneShotEnv ⟨"http://a.com".data, 3⟩ initState
        "http://a.com/p".data).2) "http://a.com/p".data).2.gets
      = ((get_page_content oneShotEnv ⟨"http://a.com".data, 3⟩ initState
        "http://a.com/p".data).2).gets :=
  C4_cache_round_trip oneShotEnv ⟨"http://a.com".data, 3⟩ initState
    "http://a.com/p".data "B".data (by decide)

/-- C5: the cache key is a deterministic function of the URL, contains no
path separator and no colon, carries no protocol prefix, and ends with the
fixed suffix `.html`. -/
theorem C5_cache_key_invariants (u v : List Char) (h : u = v) :
    safe_filename u = safe_filename v
    ∧ '/' ∉ safe_filename u
    ∧ ':' ∉ safe_filename u
    ∧ "http://".data.isPrefixOf (safe_filename u) = false
    ∧ "https://".data.isPrefixOf (safe_filename u) = false
    ∧ ".html".data.isSuffixOf (safe_filename u) = true := by
  subst h
  have hslash : '/' ∉ safe_filename u := by
    rw [safe_filename]
    intro hm
    rcases List.mem_append.mp hm with hm | hm
    · rcases mem_replaceL _ _ _ _ hm with h' | h'
      · simp at h'
      · exact not_mem_replaceL_single '/' ['_'] (by simp) _ h'
    · simp at hm
  have hcolon : ':' ∉ safe_filename u := by
    rw [safe_filename]
    intro hm
    rcases List.mem_append.mp hm with hm | hm
    · exact not_mem_replaceL_single ':' ['_'] (by simp) _ hm
    · simp at hm
  refine ⟨rfl, hslash, hcolon, ?_, ?_, ?_⟩
  · cases hx : "http://".data.isPrefixOf (safe_filename u) with
    | false => rfl
    | true => exact absurd (mem_of_isPrefixOf hx (by decide)) hslash
  · cases hx : "https://".data.isPrefixOf (safe_filename u) with
    | false => rfl
    | true => exact absurd (mem_of_isPrefixOf hx (by decide)) hslash
  · rw [safe_filename]
    exact isSuffixOf_append_self _ _

/-- Witness for C5 at a concrete URL. -/
theorem C5_cache_key_invariants_witness :
    safe_filename "http://testsite.com/a".data
      = safe_filename "http://testsite.com/a".data
    ∧ '/' ∉ safe_filename "http://testsite.com/a".data
    ∧ ':' ∉ safe_filename "http://testsite.com/a".data
    ∧ "http://".data.isPrefixOf (safe_filename "http://testsite.com/a".data)
      = false
    ∧ "https://".data.isPrefixOf (safe_filename "http://testsite.com/a".data)
      = false
    ∧ ".html".data.isSuffixOf (safe_filename "http://testsite.com/a".data)
      = true :=
  C5_cache_key_invariants "http://testsite.com/a".data
    "http://testsite.com/a".data rfl

/-- C8: `scrape` is a total function (no exception escapes for the
anticipated failure modes), and: a fetch failure (robots-denied or retries
exhausted) yields `None` without invoking `parse`; an exception raised by
`strategy.parse` is caught and converted to `None`; and a `None` returned by
`strategy.parse` (its absent signal) is propagated unchanged, not masked as an
empty success. -/
theorem C8_scrape_error_handling {α : Type} (env : ScrapeEnv)
    (cfg : ScraperCfg) (s : ScrapeState) (strat : ScrapeStrategy α)
    (hne : strat.get_url ≠ []) :
    ((get_page_content env cfg s (resolve_url cfg.base_url strat.get_url)).1
        = none →
      (scrape env cfg s strat).1 = none ∧ (scrape env cfg s strat).2.2 = 0)
    ∧ (∀ body e,
      (get_page_content env cfg s (resolve_url cfg.base_url strat.get_url)).1
        = some body →
      strat.parse body = Except.error e → (scrape env cfg s strat).1 = none)
    ∧ (∀ body,
      (get_page_content env cfg s (resolve_url cfg.base_url strat.get_url)).1
        = some body →
      body ≠ [] → strat.parse body = Except.ok none →
      (scrape env cfg s strat).1 = none ∧ (scrape env cfg s strat).2.2 = 1) := by
  rcases hG : get_page_content env cfg s (resolve_url cfg.base_url strat.get_url)
    with ⟨r, s1⟩
  refine ⟨?_, ?_, ?_⟩
  · intro h0
    simp at h0
    subst h0
    simp [scrape, hne, hG]
  · intro body e hb hp
    simp at hb
    subst hb
    by_cases hbe : body = []
    · simp [scrape, hne, hG, hbe]
    · simp [scrape, hne, hG, hbe, hp]
  · intro body hb hbe hp
    simp at hb
    subst hb
    simp [scrape, hne, hG, hbe, hp]

/-- Witness for C8: a strategy whose `parse` declares absence (`None`) makes
`scrape` return `None` after invoking `parse` once. -/
theorem C8_scrape_error_handling_witness :
    (scrape oneShotEnv ⟨"http://a.com".data, 3⟩ initState
      (⟨"/p".data, fun _ => Except.ok none⟩ : ScrapeStrategy Nat)).1 = none
    ∧ (scrape oneShotEnv ⟨"http://a.com".data, 3⟩ initState
      (⟨"/p".data, fun _ => Except.ok none⟩ : ScrapeStrategy Nat)).2.2 = 1 :=
  (C8_scrape_error_handling oneShotEnv ⟨"http://a.com".data, 3⟩ initState
    (⟨"/p".data, fun _ => Except.ok none⟩ : ScrapeStrategy Nat)
    (by decide)).2.2 "B".data (by decide) (by decide) rfl

/-- C9: a fetch that returns the empty string makes `scrape` return `None`
with `parse` never invoked (count `0`) and the fetch's post-state returned
unchanged — at the `scrape` interface this is indistinguishable from a failed
fetch (`page_scraper.py:234-236`, `if not html_content`). -/
theorem C9_empty_body_like_failure {α : Type} (env : ScrapeEnv)
    (cfg : ScraperCfg) (s : ScrapeState) (strat : ScrapeStrategy α)
    (hne : strat.get_url ≠ [])
    (h : (get_page_content env cfg s (resolve_url cfg.base_url strat.get_url)).1
      = some []) :
    scrape env cfg s strat
      = (none,
        (get_page_content env cfg s (resolve_url cfg.base_url strat.get_url)).2,
        0) := by
  rcases hG : get_page_content env cfg s (resolve_url cfg.base_url strat.get_url)
    with ⟨r, s1⟩
  rw [hG] at h
  simp at h
  subst h
  simp [scrape, hne, hG]

/-- Witness for C9: an empty cached body for the resolved URL yields `None`
from `scrape` with zero `parse` invocations. -/
theorem C9_empty_body_like_failure_witness :
    scrape allowNoNetEnv ⟨"http://a.com".data, 3⟩ emptyBodyCachedState
      (⟨"/p".data, fun _ => Except.ok (some 2)⟩ : ScrapeStrategy Nat)
      = (none,
        (get_page_content allowNoNetEnv ⟨"http://a.com".data, 3⟩
          emptyBodyCachedState "http://a.com/p".data).2, 0) :=
  C9_empty_body_like_failure allowNoNetEnv ⟨"http://a.com".data, 3⟩
    emptyBodyCachedState
    (⟨"/p".data, fun _ => Except.ok (some 2)⟩ : ScrapeStrategy Nat)
    (by decide) (by decide)

end Scrappy
